import Mathlib

set_option autoImplicit false

/-!
Verification of the Cobblemon Spawndata Extractor pipeline
(`cobblemon_processor` package: `dex_matching.py`, `data_processing.py`,
`utils.py`, `main.py`), shallowly embedded in Lean.

Conventions of the embedding:
* Python strings are Lean `String`s; the string methods used by the code
  (`title`, `capitalize`, `lower`, `strip`, `lstrip("0")`, `zfill`,
  `split`, `replace`, `startswith`, `endswith`, substring `in`) are
  re-implemented below over `List Char`, restricted to ASCII, which covers
  every string the program manipulates.
* Parsed JSON documents are values of the inductive type `JValue`
  (integers only for numbers, which covers all the numeric fields used).
* Python `dict`s are association lists with unique keys (`PyDict`);
  insertion overwrites in place, new keys are appended, matching CPython
  insertion-order semantics.
* Raw file bytes are modelled by the two observations the program makes of
  them: their truthiness (`nonempty`) and the outcome of `json.loads`
  (`parse`, `none` meaning the parse raises).
* A Python function that can raise an uncaught exception is embedded as an
  `Option`-returning function, `none` marking the raise.
-/

/-! ## Python string primitives -/

/-- Whitespace set stripped by Python `str.strip()` (ASCII part). -/
def pyIsSpace (c : Char) : Bool :=
  c = ' ' ∨ c = '\t' ∨ c = '\n' ∨ c = '\r' ∨ c = '\x0b' ∨ c = '\x0c'

/-- Python `str.strip()`. -/
def pyStrip (s : String) : String :=
  ⟨(s.toList.dropWhile pyIsSpace).reverse.dropWhile pyIsSpace |>.reverse⟩

/-- Python `str.lower()` (ASCII). -/
def pyLower (s : String) : String :=
  ⟨s.toList.map Char.toLower⟩

/-- Python `str.title()` (ASCII): a letter is uppercased when the previous
character is not a letter, lowercased otherwise. -/
def pyTitleAux : Bool → List Char → List Char
  | _, [] => []
  | prevAlpha, c :: cs =>
    let c2 := if c.isAlpha then (if prevAlpha then c.toLower else c.toUpper) else c
    c2 :: pyTitleAux c.isAlpha cs

def pyTitle (s : String) : String :=
  ⟨pyTitleAux false s.toList⟩

/-- Python `str.capitalize()`: first character uppercased, rest lowercased. -/
def pyCapitalize (s : String) : String :=
  match s.toList with
  | [] => ""
  | c :: cs => ⟨c.toUpper :: cs.map Char.toLower⟩

/-- Python `str.lstrip("0")`. -/
def pyLstripZeros (s : String) : String :=
  ⟨s.toList.dropWhile (· = '0')⟩

/-- Python `str.zfill(w)`: left-pad with zeros to width `w`, keeping a
leading sign character in front of the padding. -/
def pyZfill (s : String) (w : Nat) : String :=
  if s.length ≥ w then s
  else
    let pad : List Char := List.replicate (w - s.length) '0'
    match s.toList with
    | c :: cs => if c = '+' ∨ c = '-' then ⟨c :: (pad ++ cs)⟩ else ⟨pad ++ (c :: cs)⟩
    | [] => ⟨pad⟩

/-- Splitting helper for `pySplit`. Recursion is structural on a fuel
counter set to the input length; every step consumes at least one
character and exactly one unit of fuel (a match consumes the separator's
length, which is at least one at every call site — Python raises on an
empty separator), so the fuel-exhausted fallback is unreachable. -/
def pySplitAux (sep : List Char) : Nat → List Char → List Char → List (List Char)
  | 0, rest, acc => if rest.isEmpty then [acc.reverse] else [acc.reverse ++ rest]
  | fuel + 1, l, acc =>
    match l with
    | [] => [acc.reverse]
    | c :: cs =>
      if sep.isPrefixOf (c :: cs) ∧ ¬ sep.isEmpty then
        acc.reverse :: pySplitAux sep fuel ((c :: cs).drop sep.length) []
      else
        pySplitAux sep fuel cs (c :: acc)

/-- Python `str.split(sep)` for a nonempty separator. -/
def pySplit (s sep : String) : List String :=
  (pySplitAux sep.toList s.toList.length s.toList []).map (fun l => ⟨l⟩)

/-- Replacement helper for `pyReplace`, with structural fuel as in
`pySplitAux`. -/
def pyReplaceAux (pat repl : List Char) : Nat → List Char → List Char
  | 0, rest => rest
  | fuel + 1, l =>
    match l with
    | [] => []
    | c :: cs =>
      if pat.isPrefixOf (c :: cs) ∧ ¬ pat.isEmpty then
        repl ++ pyReplaceAux pat repl fuel ((c :: cs).drop pat.length)
      else
        c :: pyReplaceAux pat repl fuel cs

/-- Python `str.replace(pat, repl)` for a nonempty pattern. -/
def pyReplace (s pat repl : String) : String :=
  ⟨pyReplaceAux pat.toList repl.toList s.toList.length s.toList⟩

/-- Python `needle in haystack` substring test. -/
def pyIn (needle hay : String) : Bool :=
  (List.range (hay.toList.length + 1)).any
    (fun i => needle.toList.isPrefixOf (hay.toList.drop i))

/-- Python `str.startswith`. -/
def pyStartsWith (s pre : String) : Bool :=
  pre.toList.isPrefixOf s.toList

/-- Python `str.endswith`. -/
def pyEndsWith (s suf : String) : Bool :=
  suf.toList.isSuffixOf s.toList

/-- Python `str.isdigit()` (ASCII digits). -/
def pyIsDigitStr (s : String) : Bool :=
  s ≠ "" ∧ s.toList.all Char.isDigit

/-- Python `sep.join(strings)`. -/
def pyJoin (sep : String) (xs : List String) : String :=
  String.intercalate sep xs

/-- `os.path.basename` for POSIX-style paths (used on archive-internal
paths, which always use forward slashes). -/
def osBasename (p : String) : String :=
  (pySplit p "/").getLastD ""

/-- Digits of an ASCII digit string as a natural number. -/
def digitsToNat (cs : List Char) : Nat :=
  cs.foldl (fun acc c => acc * 10 + (c.toNat - '0'.toNat)) 0

/-- Python `int(s)` on a string: optional sign followed by digits, after
stripping surrounding whitespace; `none` models `ValueError`. -/
def pyParseInt (s : String) : Option Int :=
  let t := (pyStrip s).toList
  match t with
  | '-' :: rest =>
    if rest ≠ [] ∧ rest.all Char.isDigit then some (-(digitsToNat rest : Int)) else none
  | '+' :: rest =>
    if rest ≠ [] ∧ rest.all Char.isDigit then some ((digitsToNat rest : Int)) else none
  | _ =>
    if t ≠ [] ∧ t.all Char.isDigit then some ((digitsToNat t : Int)) else none

/-! ## JSON values -/

/-- A parsed JSON document (`json.loads` output). Numbers are modelled as
integers, which covers every numeric field the program reads. -/
inductive JValue where
  | null : JValue
  | bool : Bool → JValue
  | num : Int → JValue
  | str : String → JValue
  | arr : List JValue → JValue
  | obj : List (String × JValue) → JValue
  deriving Repr

/-- Python truthiness of a JSON value. -/
def truthy : JValue → Bool
  | .null => false
  | .bool b => b
  | .num n => n ≠ 0
  | .str s => s ≠ ""
  | .arr xs => ¬ xs.isEmpty
  | .obj fs => ¬ fs.isEmpty

/-- Lookup of a key in a JSON object, `none` when absent.
Only ever applied to object receivers in this development, matching the
dict receivers of every `.get` call the program performs. -/
def jGet : JValue → String → Option JValue
  | .obj fs, k => (fs.find? (fun p => p.1 = k)).map (·.2)
  | _, _ => none

/-- Python `d.get(k, default)` where a non-dict receiver raises
(`none` models the raise). -/
def pyGet (v : JValue) (k : String) (d : JValue) : Option JValue :=
  match v with
  | .obj fs => some (((fs.find? (fun p => p.1 = k)).map (·.2)).getD d)
  | _ => none

/-- The apostrophe character used by Python `repr` of strings. -/
def quoteChar : Char := Char.ofNat 39

mutual

/-- Python `repr` of a JSON value (approximate for containers; only ever
applied to scalar label values in the program's data). -/
def pyRepr : JValue → String
  | .null => "None"
  | .bool true => "True"
  | .bool false => "False"
  | .num n => toString n
  | .str s => String.singleton quoteChar ++ s ++ String.singleton quoteChar
  | .arr xs => "[" ++ pyJoin ", " (pyReprList xs) ++ "]"
  | .obj fs => "\x7b" ++ pyJoin ", " (pyReprFields fs) ++ "\x7d"

/-- `repr` of the elements of a JSON array. -/
def pyReprList : List JValue → List String
  | [] => []
  | x :: xs => pyRepr x :: pyReprList xs

/-- `repr` of the key/value pairs of a JSON object. -/
def pyReprFields : List (String × JValue) → List String
  | [] => []
  | (k, v) :: fs =>
    (String.singleton quoteChar ++ k ++ String.singleton quoteChar ++ ": " ++ pyRepr v) ::
      pyReprFields fs

end

/-- Python `str(v)` of a JSON value: identity on strings, `repr`-style
rendering otherwise. -/
def pyStr : JValue → String
  | .str s => s
  | v => pyRepr v

/-- Python iteration `for x in v`: lists yield elements, strings yield
one-character strings, dicts yield keys; other values raise. -/
def pyIter : JValue → Option (List JValue)
  | .arr xs => some xs
  | .str s => some (s.toList.map (fun c => .str (String.singleton c)))
  | .obj fs => some (fs.map (fun p => .str p.1))
  | _ => none

/-- A Python value usable where the program calls a `str` method on it;
`none` models the `AttributeError`/`TypeError` raised otherwise. -/
def asStr : JValue → Option String
  | .str s => some s
  | _ => none

/-- Python `", ".join(v)` where `v` is iterated: every element must be a
string (`none` models the `TypeError` otherwise); iterating a string joins
its characters. -/
def pyJoinJ (sep : String) (v : JValue) : Option String := do
  let xs ← pyIter v
  let ss ← xs.mapM asStr
  return pyJoin sep ss

/-! ## Python dicts -/

/-- A Python `dict` with `String` keys: an association list with unique
keys in insertion order. -/
abbrev PyDict (α : Type) := List (String × α)

/-- Python `d[k]` / `d.get(k)`. -/
def dictGet {α : Type} (d : PyDict α) (k : String) : Option α :=
  (d.find? (fun p => p.1 = k)).map (·.2)

/-- Python `d[k] = v`: overwrite in place if the key exists, append
otherwise (CPython insertion-order semantics). -/
def dictSet {α : Type} (d : PyDict α) (k : String) (v : α) : PyDict α :=
  if d.any (fun p => p.1 = k) then
    d.map (fun p => if p.1 = k then (k, v) else p)
  else
    d ++ [(k, v)]

/-- Python `list(d.keys())`. -/
def dictKeys {α : Type} (d : PyDict α) : List String :=
  d.map (·.1)

/-! ## `utils.py` -/

/-- `utils.format_location_names`, one location token.
Source: `utils.py` lines 9-34. `none` models the unpacking `ValueError`
when a namespaced token contains more than one slash, or a `TypeError`
when the token is not a string. -/
def format_one_location (location : String) : String :=
  if pyIn ":" location then
    let parts := pySplit location ":"
    let p1 := (parts.get? 1).getD ""
    if pyIn "/" p1 then
      let pieces := pySplit p1 "/"
      let namespaceName := (pieces.get? 0).getD ""
      let descriptor := (pieces.get? 1).getD ""
      let formattedNamespace := pyTitle (pyReplace namespaceName "_" " ")
      let formattedDescriptor := pyTitle (pyReplace (pyReplace descriptor "is_" "") "_" " ")
      formattedNamespace ++ ": " ++ formattedDescriptor
    else
      let name := if pyStartsWith p1 "is_" then ⟨p1.toList.drop 3⟩ else p1
      pyTitle (pyStrip (pyReplace name "_" " "))
  else
    pyTitle (pyReplace location "_" " ")

/-- `utils.format_location_names` over a JSON list value: iterate the
value and format each element, which must be a string.
`none` models the raise on a non-iterable value, a non-string element, or
a namespaced element whose descriptor part has other than exactly one
slash (tuple-unpacking `ValueError`). -/
def format_location_names (locations : JValue) : Option (List String) := do
  let xs ← pyIter locations
  xs.mapM (fun x => do
    let s ← asStr x
    if pyIn ":" s then
      let parts := pySplit s ":"
      let p1 := (parts.get? 1).getD ""
      if pyIn "/" p1 then
        match pySplit p1 "/" with
        | [_, _] => pure (format_one_location s)
        | _ => none
      else pure (format_one_location s)
    else pure (format_one_location s))

/-- The moon-phase lookup table of `utils.get_moon_phase_name`
(`utils.py` lines 38-48). -/
def moon_phase_map (n : Int) : Option String :=
  if n = 0 then some "Full Moon"
  else if n = 1 then some "Full Moon"
  else if n = 2 then some "Waning Gibbous"
  else if n = 3 then some "Last Quarter"
  else if n = 4 then some "Waning Crescent"
  else if n = 5 then some "New Moon"
  else if n = 6 then some "Waxing Crescent"
  else if n = 7 then some "First Quarter"
  else if n = 8 then some "Waxing Gibbous"
  else none

/-- Python exceptions distinguished by `get_moon_phase_name`: `ValueError`
is caught by its handlers, `TypeError` is not. -/
inductive PyErr where
  | valueError : PyErr
  | typeError : PyErr

/-- Python `int(v)` on a JSON value: numbers and booleans convert, strings
are parsed (`ValueError` on failure), anything else raises `TypeError`. -/
def pyInt : JValue → Except PyErr Int
  | .num n => .ok n
  | .bool b => .ok (if b then 1 else 0)
  | .str s =>
    match pyParseInt s with
    | some n => .ok n
    | none => .error .valueError
  | _ => .error .typeError

/-- `int` over a list, left to right, stopping at the first raise — the
evaluation order of the list comprehension in `get_moon_phase_name`. -/
def pyIntList : List JValue → Except PyErr (List Int)
  | [] => .ok []
  | x :: xs => do
    let n ← pyInt x
    let ns ← pyIntList xs
    return n :: ns

/-- `utils.get_moon_phase_name` (`utils.py` lines 36-75).
`none` models an uncaught `TypeError` (for example `int(None)` inside the
list branch, whose handler only catches `ValueError`). -/
def get_moon_phase_name (moon_phases : JValue) : Option String :=
  if ¬ truthy moon_phases then some ""
  else
    match moon_phases with
    | .arr xs =>
      match pyIntList xs with
      | .ok ns => some (pyJoin ", " (ns.map (fun n => (moon_phase_map n).getD "Unknown List Phase")))
      | .error .valueError => some "Unknown List Error Phase"
      | .error .typeError => none
    | .str s =>
      if pyIn "," s then
        let phaseNumbers := (pySplit s ",").filterMap (fun p =>
          if pyIsDigitStr (pyStrip p) then pyParseInt (pyStrip p) else none)
        let phaseNames := phaseNumbers.map (fun n => (moon_phase_map n).getD "Unknown Str Phase")
        some (if phaseNames.isEmpty then "Unknown Phase" else pyJoin ", " phaseNames)
      else
        match pyInt (.str s) with
        | .ok n => some ((moon_phase_map n).getD "Unknown Single Phase")
        | .error .valueError => some "Unknown Single Error Phase"
        | .error .typeError => none
    | v =>
      match pyInt v with
      | .ok n => some ((moon_phase_map n).getD "Unknown Single Phase")
      | .error .valueError => some "Unknown Single Error Phase"
      | .error .typeError => none

/-- `utils.get_weather_condition` (`utils.py` lines 77-83).
The final branch mirrors Python `"Clear" if condition.get("isRaining") is
False else "Any"`: only the boolean object `False` selects "Clear".
`none` models the raise when `condition` is not a dict. -/
def get_weather_condition (condition : JValue) : Option String := do
  let thunder ← pyGet condition "isThundering" .null
  if truthy thunder then return "Thunder"
  let raining ← pyGet condition "isRaining" .null
  if truthy raining then return "Rain"
  match raining with
  | .bool false => return "Clear"
  | _ => return "Any"

/-- `utils.get_sky_condition` (`utils.py` lines 85-94). The default
argument of the outer `.get` is evaluated eagerly, so a non-dict
`condition` value raises even when `canSeeSky` is present at top level;
`is True` / `is False` only accept the boolean objects. -/
def get_sky_condition (spawn : JValue) : Option String := do
  let conditionVal ← pyGet spawn "condition" (.obj [])
  let inner ← pyGet conditionVal "canSeeSky" .null
  let canSeeSky ← pyGet spawn "canSeeSky" inner
  match canSeeSky with
  | .bool true => return "MUST SEE"
  | .bool false => return "CANNOT SEE"
  | _ => return "Any"

/-! ## `dex_matching.py` -/

/-- `dex_matching._dex_from_filename` (`dex_matching.py` lines 9-12):
basename, segment before the first underscore, strip leading zeros,
re-pad to width 4. -/
def dex_from_filename (path : String) : String :=
  let base := osBasename path
  let dex := (pySplit base "_").headD ""
  pyZfill (pyLstripZeros dex) 4

/-- Raw bytes of one archive entry, modelled by the two observations the
program makes of them: Python truthiness, and the result of `json.loads`
(`none` when the parse raises). -/
structure PyBytes where
  nonempty : Bool
  parse : Option JValue

/-- The loop body of `build_spawn_dex_dict`: store a `.json` entry under
its filename-derived key, skip anything else. -/
def spawn_index_step (out : PyDict (String × PyBytes × String × String))
    (p : String × (PyBytes × String × String)) : PyDict (String × PyBytes × String × String) :=
  if pyEndsWith p.1 ".json" then
    dictSet out (dex_from_filename p.1) (p.1, p.2.1, p.2.2.1, p.2.2.2)
  else out

/-- `dex_matching.build_spawn_dex_dict` (`dex_matching.py` lines 14-20):
index every `.json` spawn file under its filename-derived dex key,
storing `(path, blob, archive, leaf)`; collisions overwrite. -/
def build_spawn_dex_dict (spawn_files : PyDict (PyBytes × String × String)) :
    PyDict (String × PyBytes × String × String) :=
  spawn_files.foldl spawn_index_step []

/-- The key `build_species_dex_dict` computes for one parsed species
record: `str(data.get("nationalPokedexNumber", "")).zfill(4)`.
`data.get` exists only on dicts, and this line sits outside the `try`
that guards `json.loads`, so a document that parses to anything other
than a dict (null, list, number, string, boolean) raises an uncaught
`AttributeError` — modelled by `none`. -/
def species_dex_key (data : JValue) : Option String :=
  match data with
  | .obj _ => some (pyZfill (pyStr ((jGet data "nationalPokedexNumber").getD (.str ""))) 4)
  | _ => none

/-- The loop body of `build_species_dex_dict`: parse a `.json` entry
(skip it when the parse raises — that raise is caught), compute its key,
and store it unless the key is empty or the literal string "None".
A `none` accumulator or a `none` key marks the uncaught `AttributeError`
on a non-dict document: the whole build raises and stores nothing. -/
def species_index_step (out : Option (PyDict (String × JValue × String × String)))
    (p : String × (PyBytes × String × String)) :
    Option (PyDict (String × JValue × String × String)) := do
  let out ← out
  if pyEndsWith p.1 ".json" then
    match p.2.1.parse with
    | none => return out
    | some data =>
      match species_dex_key data with
      | none => none
      | some dex =>
        if dex ≠ "" ∧ dex ≠ "None" then
          return dictSet out dex (p.1, data, p.2.2.2, p.2.2.1)
        else return out
  else return out

/-- `dex_matching.build_species_dex_dict` (`dex_matching.py` lines 22-35):
parse each `.json` species file (dropping it when the parse fails), key it
by the zero-padded `nationalPokedexNumber`, keep it unless the key is
empty or the literal string "None". The result is `none` when some
`.json` entry parses to a non-dict document: the `data.get` call then
raises an uncaught `AttributeError` and the run crashes. -/
def build_species_dex_dict (species_files : PyDict (PyBytes × String × String)) :
    Option (PyDict (String × JValue × String × String)) :=
  species_files.foldl species_index_step (some [])

/-- One joined tuple of `dex_matching.match_dex_numbers`: spawn path,
spawn bytes, spawn archive, species path, species JSON, species directory
leaf, species archive. An absent side is null-filled. -/
structure MatchedEntry where
  spawnPath : Option String
  spawnBytes : Option PyBytes
  spawnArchive : Option String
  speciesPath : Option String
  speciesJson : Option JValue
  speciesDir : Option String
  speciesArchive : Option String

/-- The 7-field tuple built for one key from the optional spawn 4-tuple
and optional species 4-tuple, exactly as `match_dex_numbers` builds it
(`s[0], s[1], s[2], p[0], p[1], p[2], p[3]`; the spawn leaf `s[3]` is
dropped). -/
def matched_of (s : Option (String × PyBytes × String × String))
    (p : Option (String × JValue × String × String)) : MatchedEntry :=
  { spawnPath := s.map (·.1)
    spawnBytes := s.map (·.2.1)
    spawnArchive := s.map (·.2.2.1)
    speciesPath := p.map (·.1)
    speciesJson := p.map (·.2.1)
    speciesDir := p.map (·.2.2.1)
    speciesArchive := p.map (·.2.2.2) }

/-- `dex_matching.match_dex_numbers` (`dex_matching.py` lines 37-47):
union the key sets, null-fill the absent side of each key.
The iteration order of the Python `set` union is arbitrary; the model
fixes one order (spawn keys then new species keys), which is immaterial
to every property proved about the result. -/
def match_dex_numbers (spawn_dex : PyDict (String × PyBytes × String × String))
    (species_dex : PyDict (String × JValue × String × String)) : PyDict MatchedEntry :=
  ((dictKeys spawn_dex ++ dictKeys species_dex).dedup).map
    (fun dex => (dex, matched_of (dictGet spawn_dex dex) (dictGet species_dex dex)))

/-! ## `data_processing.py` -/

/-- One output CSV row as built by `build_merged_entry`
(`data_processing.py` lines 50-77), field per dict key in source order.
`weight` and `spawnId` hold raw JSON values (the code stores
`entry.get(...)` results unconverted there). -/
structure MergedRow where
  dexNumber : String
  pokemonName : String
  primaryType : String
  secondaryType : String
  rarity : String
  eggGroups : String
  generation : String
  labels : String
  time : String
  weather : String
  sky : String
  presets : String
  biomes : String
  antiBiomes : String
  structures : String
  antiStructures : String
  moonPhase : String
  antiMoonPhase : String
  baseBlocks : String
  nearbyBlocks : String
  weight : JValue
  context : String
  spawnId : JValue
  speciesArchive : String
  originalSpawnArchive : String
  originalSpeciesArchive : String

/-- One skipped-entry record as built by `process_entry`
(`data_processing.py` lines 87-96). The name/type fields hold raw JSON
values (blank strings when the species side is absent). -/
structure SkippedEntry where
  dexNumber : String
  pokemonName : JValue
  primaryType : JValue
  secondaryType : JValue
  eggGroups : String
  generation : String
  labels : String
  speciesArchive : Option String

/-- The form scan of `data_processing.get_species_data`: first form whose
lower-cased `name` is a substring of the lower-cased pokemon name, the
top-level record when no form matches. `none` models the raise on a
non-dict form or a non-string form name. -/
def find_form (pokemon_name : String) (species_data : JValue) : List JValue → Option JValue
  | [] => some species_data
  | f :: rest => do
    let nameVal ← pyGet f "name" (.str "")
    let s ← asStr nameVal
    if pyIn (pyLower s) (pyLower pokemon_name) then some f
    else find_form pokemon_name species_data rest

/-- `data_processing.get_species_data` (`data_processing.py` lines 14-18). -/
def get_species_data (pokemon_name : String) (species_data : JValue) : Option JValue := do
  let formsVal ← pyGet species_data "forms" (.arr [])
  let forms ← pyIter formsVal
  find_form pokemon_name species_data forms

/-- Shared label rendering of `extract_species_info` /
`build_merged_entry`: title-case every non-`gen` label with underscores
replaced by spaces. -/
def meaningful_labels (labels_all : List JValue) : List String :=
  (labels_all.filter (fun lbl => ¬ pyStartsWith (pyLower (pyStr lbl)) "gen")).map
    (fun lbl => pyTitle (pyReplace (pyStr lbl) "_" " "))

/-- `data_processing.extract_species_info` (`data_processing.py` lines
20-30): returns `(name, primary_type, secondary_type, egg_groups,
generation, labels)`. The first three are raw JSON values (the code does
not coerce them); `none` models an uncaught raise (for example a
non-string generation label or a non-string egg-group element). -/
def extract_species_info (species_data : JValue) :
    Option (JValue × JValue × JValue × String × String × String) := do
  let name ← pyGet species_data "name" (.str "Unknown")
  let primary ← pyGet species_data "primaryType" (.str "")
  let secondary ← pyGet species_data "secondaryType" (.str "")
  let eggVal ← pyGet species_data "eggGroups" (.arr [])
  let egg_groups ← pyJoinJ ", " eggVal
  let labelsVal ← pyGet species_data "labels" (.arr [])
  let labels_all ← pyIter labelsVal
  let generation ←
    match labels_all.find? (fun lbl => pyStartsWith (pyLower (pyStr lbl)) "gen") with
    | none => pure ""
    | some lbl => do
      let s ← asStr lbl
      pure (pyCapitalize (pyReplace s "gen" "Gen "))
  let meaningful := meaningful_labels labels_all
  let labels := if meaningful.isEmpty then "" else pyJoin ", " meaningful
  return (name, primary, secondary, egg_groups, generation, labels)

/-- The `species_data or {}` coalescing of `build_merged_entry` line 37
(also used at line 41): a falsy or absent species dict becomes `{}`. -/
def orEmptyDict (species_data : Option JValue) : JValue :=
  match species_data with
  | some v => if truthy v then v else .obj []
  | none => .obj []

/-- The species-derived fields of `build_merged_entry` (lines 37-42):
`(primary_type, secondary_type, egg_groups, labels)`. Fields are read
from the resolved form sub-record, labels from the top-level record. -/
def merged_species_fields (pokemon_name : String) (sd : JValue) :
    Option (String × String × String × String) := do
  let pokemon_species ← get_species_data pokemon_name sd
  let primary_type ← (pyGet pokemon_species "primaryType" (.str "")).bind asStr
  let secondary_type ← (pyGet pokemon_species "secondaryType" (.str "-----")).bind asStr
  let eggJoined ← (pyGet pokemon_species "eggGroups" (.arr [])).bind (pyJoinJ ", ")
  let labels_all ← (pyGet sd "labels" (.arr [])).bind pyIter
  let meaningful := meaningful_labels labels_all
  let labels := if meaningful.isEmpty then "" else pyJoin ", " meaningful
  return (pyTitle primary_type, pyTitle secondary_type, pyTitle eggJoined, labels)

/-- The time/weather/sky/moon fields of `build_merged_entry` (lines
43-46, 59-61, 67-68): `(time, weather, sky, moon phase, anti moon
phase)`. -/
def merged_schedule_fields (entry conditionVal anticonditionVal : JValue) :
    Option (String × String × String × String × String) := do
  let time_range ← (pyGet conditionVal "timeRange" (.str "Any")).bind asStr
  let sky_condition ← get_sky_condition entry
  let weather ← get_weather_condition conditionVal
  let moonPhaseName ← (pyGet conditionVal "moonPhase" (.arr [])).bind get_moon_phase_name
  let antiMoonPhaseName ← (pyGet anticonditionVal "moonPhase" (.arr [])).bind get_moon_phase_name
  return (pyTitle time_range, weather, sky_condition, moonPhaseName, antiMoonPhaseName)

/-- The location-list fields of `build_merged_entry` (lines 63-66,
69-70): `(biomes, anti-biomes, structures, anti-structures, base blocks,
nearby blocks)`. The first four are stripped after joining, the block
lists are not (as in the source). -/
def merged_location_fields (conditionVal anticonditionVal : JValue) :
    Option (String × String × String × String × String × String) := do
  let biomesFmt ← (pyGet conditionVal "biomes" (.arr [])).bind format_location_names
  let antiBiomesFmt ← (pyGet anticonditionVal "biomes" (.arr [])).bind format_location_names
  let structuresFmt ← (pyGet conditionVal "structures" (.arr [])).bind format_location_names
  let antiStructuresFmt ← (pyGet anticonditionVal "structures" (.arr [])).bind format_location_names
  let baseBlocksFmt ← (pyGet conditionVal "neededBaseBlocks" (.arr [])).bind format_location_names
  let nearbyBlocksFmt ← (pyGet conditionVal "neededNearbyBlocks" (.arr [])).bind format_location_names
  return (pyStrip (pyJoin ", " biomesFmt), pyStrip (pyJoin ", " antiBiomesFmt),
    pyStrip (pyJoin ", " structuresFmt), pyStrip (pyJoin ", " antiStructuresFmt),
    pyJoin ", " baseBlocksFmt, pyJoin ", " nearbyBlocksFmt)

/-- The remaining entry-derived fields of `build_merged_entry` (lines 55,
62, 71-73): `(rarity, presets, weight, context, spawn id)`. The source's
`", ".join(...).title() or ""` for presets is an identity on the title
result, since a string is falsy exactly when it is already empty. -/
def merged_misc_fields (entry : JValue) :
    Option (String × String × JValue × String × JValue) := do
  let rarity ← (pyGet entry "bucket" (.str "")).bind asStr
  let presetsJoined ← (pyGet entry "presets" (.arr [])).bind (pyJoinJ ", ")
  let weight ← pyGet entry "weight" (.str "")
  let context ← (pyGet entry "context" (.str "")).bind asStr
  let spawn_id ← pyGet entry "id" (.str "Unknown")
  return (pyTitle rarity, pyTitle presetsJoined, weight, pyTitle context, spawn_id)

/-- The provenance fields of `build_merged_entry` (lines 47-49):
`(species archive, original spawn archive, original species archive)`. -/
def merged_provenance (species_file original_spawn_archive original_species_archive
    species_directory : Option String) : String × String × String :=
  let species_archive :=
    match species_directory, species_file with
    | some d, some f => if d ≠ "" ∧ f ≠ "" then d ++ "/" ++ osBasename f else "Unknown"
    | _, _ => "Unknown"
  let orig_spawn :=
    match original_spawn_archive with
    | some a => if a ≠ "" then osBasename a else "Unknown"
    | none => "Unknown"
  let orig_species :=
    match original_species_archive with
    | some a => if a ≠ "" then osBasename a else "Unknown"
    | none => "Unknown"
  (species_archive, orig_spawn, orig_species)

/-- `data_processing.build_merged_entry` (`data_processing.py` lines
32-77). Outer `none` models an uncaught raise; inner `none` is the
function's own `return None` for a blank pokemon name. The `spawn_file`
parameter is accepted (as in the source) but unused by the body.
The body is staged through the `merged_*` helpers above; the staging only
reorders independent field computations after the blank-name early
return, which cannot change an `Option`-valued result (it is `none`
exactly when some computation raises, in any order). -/
def build_merged_entry (dex_number : String) (species_data : Option JValue) (entry : JValue)
    (_spawn_file : Option String) (species_file : Option String)
    (original_spawn_archive original_species_archive : Option String)
    (generation : String) (species_directory : Option String) :
    Option (Option MergedRow) := do
  let pokemon_name := pyStrip (← (pyGet entry "pokemon" (.str "")).bind asStr)
  if pokemon_name = "" then return none
  let sd := orEmptyDict species_data
  let (primary_type, secondary_type, egg_groups, labels) ← merged_species_fields pokemon_name sd
  let conditionVal ← pyGet entry "condition" (.obj [])
  let anticonditionVal ← pyGet entry "anticondition" (.obj [])
  let (time, weather, sky, moonPhase, antiMoonPhase) ←
    merged_schedule_fields entry conditionVal anticonditionVal
  let (biomes, antiBiomes, structures, antiStructures, baseBlocks, nearbyBlocks) ←
    merged_location_fields conditionVal anticonditionVal
  let (rarity, presets, weight, context, spawn_id) ← merged_misc_fields entry
  let (species_archive, orig_spawn, orig_species) :=
    merged_provenance species_file original_spawn_archive original_species_archive
      species_directory
  return some
    { dexNumber := "#" ++ pyZfill dex_number 4
      pokemonName := pyTitle pokemon_name
      primaryType := primary_type
      secondaryType := secondary_type
      rarity := rarity
      eggGroups := egg_groups
      generation := generation
      labels := labels
      time := time
      weather := weather
      sky := sky
      presets := presets
      biomes := biomes
      antiBiomes := antiBiomes
      structures := structures
      antiStructures := antiStructures
      moonPhase := moonPhase
      antiMoonPhase := antiMoonPhase
      baseBlocks := baseBlocks
      nearbyBlocks := nearbyBlocks
      weight := weight
      context := context
      spawnId := spawn_id
      speciesArchive := species_archive
      originalSpawnArchive := orig_spawn
      originalSpeciesArchive := orig_species }

/-- The species-summary step of `process_entry` (`data_processing.py`
lines 81-84): blank fields when the species JSON is falsy, otherwise
`extract_species_info`. -/
def species_summary (species_json : Option JValue) :
    Option (JValue × JValue × JValue × String × String × String) :=
  match species_json with
  | some sj => if truthy sj then extract_species_info sj else some (.str "", .str "", .str "", "", "", "")
  | none => some (.str "", .str "", .str "", "", "", "")

/-- Python truthiness of the optional spawn path (`not spawn_file`). -/
def optStrTruthy : Option String → Bool
  | some s => s ≠ ""
  | none => false

/-- Python truthiness of the optional spawn bytes (`not spawn_blob`). -/
def optBytesTruthy : Option PyBytes → Bool
  | some b => b.nonempty
  | none => false

/-- The per-spawn-condition loop of `process_entry` (`data_processing.py`
lines 106-110): build a row for each entry, keeping the non-`None` ones. -/
def gather_rows (dex_number : String) (t : MatchedEntry) (generation : String) :
    List JValue → Option (List MergedRow)
  | [] => some []
  | e :: es => do
    let row ← build_merged_entry dex_number t.speciesJson e t.spawnPath t.speciesPath
      t.spawnArchive t.speciesArchive generation t.speciesDir
    let rest ← gather_rows dex_number t generation es
    match row with
    | some r => pure (r :: rest)
    | none => pure rest

/-- `data_processing.process_entry` (`data_processing.py` lines 79-111):
returns `(merged rows, skipped record)` — `(none, some skipped)` on the
no-spawn path, `(none, none)` when the spawn JSON fails to parse, and
`(some rows, none)` otherwise. Outer `none` models an uncaught raise
(including the `KeyError` on a missing key). -/
def process_entry (dex_number : String) (matched_dex_dict : PyDict MatchedEntry) :
    Option (Option (List MergedRow) × Option SkippedEntry) := do
  let t ← dictGet matched_dex_dict dex_number
  let summary ← species_summary t.speciesJson
  let (pokemon_name, primary_type, secondary_type, egg_groups, generation, labels) := summary
  if ¬ (optStrTruthy t.spawnPath ∧ optBytesTruthy t.spawnBytes) then
    return (none, some
      { dexNumber := dex_number
        pokemonName := pokemon_name
        primaryType := primary_type
        secondaryType := secondary_type
        eggGroups := egg_groups
        generation := generation
        labels := labels
        speciesArchive := t.speciesArchive })
  let b ← t.spawnBytes
  match b.parse with
  | none => return (none, none)
  | some v =>
    -- `json.loads(spawn_blob) or {"spawns": []}`
    let spawn_data := if truthy v then v else .obj [("spawns", .arr [])]
    let spawnsVal ← pyGet spawn_data "spawns" (.arr [])
    let entries ← pyIter spawnsVal
    let merged ← gather_rows dex_number t generation entries
    return (some merged, none)

/-! ## `main.py` -/

/-- The `--mode` CLI choices (`main.py` lines 112-115); argparse rejects
any other value, so the fallback branch of `apply_mode` is unreachable. -/
inductive Mode where
  | default : Mode
  | additions : Mode
  | skipped : Mode
  | full : Mode

/-- The five booleans returned by `main.apply_mode` (`main.py` lines
126-159), in source order. -/
structure ModeFlags where
  include_normal : Bool
  write_main : Bool
  write_skipped : Bool
  include_additions : Bool
  include_spawn_without_species : Bool

/-- `main.apply_mode` (`main.py` lines 126-159). -/
def apply_mode : Mode → ModeFlags
  | .default => ⟨true, true, false, false, false⟩
  | .additions => ⟨false, false, false, true, false⟩
  | .skipped => ⟨true, false, true, false, false⟩
  | .full => ⟨true, true, true, true, false⟩

/-- The key selection of the normal path (`main.py` line 234): all keys
when spawn-without-species entries are included, otherwise only keys
whose tuple has a non-null species JSON at index 4. -/
def iter_keys (matched : PyDict MatchedEntry) (include_spawn_wo_species : Bool) : List String :=
  if include_spawn_wo_species then dictKeys matched
  else (matched.filter (fun p => p.2.speciesJson.isSome)).map (·.1)

/-- The row/skip gathering of the normal path (`main.py` lines 236-239):
process every selected key, concatenate the non-null row lists, and
collect skip records only when the skipped CSV is requested. -/
def run_normal (matched : PyDict MatchedEntry) (write_skipped_csv : Bool)
    (include_spawn_wo_species : Bool) : Option (List MergedRow × List SkippedEntry) := do
  let results ← (iter_keys matched include_spawn_wo_species).mapM
    (fun d => process_entry d matched)
  let rows := results.foldl
    (fun acc r => match r.1 with | some l => acc ++ l | none => acc) []
  let skipped := results.foldl
    (fun acc r => match r.2 with
      | some s => if write_skipped_csv then acc ++ [s] else acc
      | none => acc) []
  return (rows, skipped)

/-! ## Concrete inputs used by the theorems -/

/-- Parsed content of the scenario spawn file `0025_pikachu.json`. -/
def pikachuSpawnJson : JValue :=
  .obj [("spawns", .arr [
    .obj [("pokemon", .str "Pikachu"), ("condition", .obj [("isRaining", .bool true)])]])]

/-- Parsed content of the scenario species file for Pikachu. -/
def pikachuSpeciesJson : JValue :=
  .obj [("nationalPokedexNumber", .num 25), ("name", .str "Pikachu"),
        ("primaryType", .str "electric")]

/-- A spawn archive containing exactly `0025_pikachu.json`. -/
def exampleSpawnFiles : PyDict (PyBytes × String × String) :=
  [("data/cobblemon/spawn_pool_world/0025_pikachu.json",
    (⟨true, some pikachuSpawnJson⟩, "Spawn.zip", "spawn_pool_world"))]

/-- A species archive containing exactly Pikachu's species file. -/
def exampleSpeciesFiles : PyDict (PyBytes × String × String) :=
  [("data/cobblemon/species/pikachu.json",
    (⟨true, some pikachuSpeciesJson⟩, "Species.zip", "species"))]

/-- The species index built from the scenario archive. The scenario's
species file parses to a dict, so the build raises nothing and evaluates
to `some`; `getD` extracts the built index (the `[]` default is never
used, see `build_exampleSpeciesDex`). -/
def exampleSpeciesDex : PyDict (String × JValue × String × String) :=
  (build_species_dex_dict exampleSpeciesFiles).getD []

/-- The scenario species build indeed succeeds, with `exampleSpeciesDex`
as its result. -/
lemma build_exampleSpeciesDex :
    build_species_dex_dict exampleSpeciesFiles = some exampleSpeciesDex := rfl

/-- The matched map built from the scenario archives. -/
def exampleMatched : PyDict MatchedEntry :=
  match_dex_numbers (build_spawn_dex_dict exampleSpawnFiles) exampleSpeciesDex

/-- The single merged row the scenario produces. -/
def c1_row : MergedRow :=
  { dexNumber := "#0025"
    pokemonName := "Pikachu"
    primaryType := "Electric"
    secondaryType := "-----"
    rarity := ""
    eggGroups := ""
    generation := ""
    labels := ""
    time := "Any"
    weather := "Rain"
    sky := "Any"
    presets := ""
    biomes := ""
    antiBiomes := ""
    structures := ""
    antiStructures := ""
    moonPhase := ""
    antiMoonPhase := ""
    baseBlocks := ""
    nearbyBlocks := ""
    weight := .str ""
    context := ""
    spawnId := .str "Unknown"
    speciesArchive := "species/pikachu.json"
    originalSpawnArchive := "Spawn.zip"
    originalSpeciesArchive := "Species.zip" }

/-! ## Claims -/

/-- C1: the spawn entry `0025_pikachu.json` parsing to
`{"spawns":[{"pokemon":"Pikachu","condition":{"isRaining":true}}]}`,
joined with the species record
`{"nationalPokedexNumber":25,"name":"Pikachu","primaryType":"electric"}`,
merges into exactly one MergedRow, whose Dex Number is "#0025", Pokemon
Name "Pikachu", Primary Type "Electric", Weather "Rain" and Sky "Any". -/
theorem C1_merged_row_pikachu :
    ∃ r : MergedRow, process_entry "0025" exampleMatched = some (some [r], none) ∧
      r.dexNumber = "#0025" ∧ r.pokemonName = "Pikachu" ∧ r.primaryType = "Electric" ∧
      r.weather = "Rain" ∧ r.sky = "Any" :=
  ⟨c1_row, rfl, rfl, rfl, rfl, rfl, rfl⟩

/-- C3 counterexample: the moon-phase decoder does not map `[0, 4]` to
"Full Moon, New Moon" — the code's table maps 4 to "Waning Crescent"
(and "7" to "First Quarter", not "Waxing Gibbous"). -/
theorem C3_moon_counterexample :
    get_moon_phase_name (.arr [.num 0, .num 4]) ≠ some "Full Moon, New Moon" ∧
    get_moon_phase_name (.str "7") ≠ some "Waxing Gibbous" := by
  constructor <;> decide

/-- C3 amended: under the code's lookup table (0 and 1 both "Full Moon"
through 8 "Waxing Gibbous"), `[0, 4]` maps to "Full Moon, Waning
Crescent", the single-value string "7" maps to "First Quarter", a null or
absent (empty-list default) value maps to "", and an unparseable single
string degrades to the "Unknown Single Error Phase" placeholder rather
than raising. -/
theorem C3_moon_amended :
    get_moon_phase_name (.arr [.num 0, .num 4]) = some "Full Moon, Waning Crescent" ∧
    get_moon_phase_name (.str "7") = some "First Quarter" ∧
    get_moon_phase_name .null = some "" ∧
    get_moon_phase_name (.arr []) = some "" ∧
    get_moon_phase_name (.str "abc") = some "Unknown Single Error Phase" :=
  ⟨rfl, rfl, rfl, rfl, rfl⟩

/-- C4 counterexample: the non-namespaced token "is_underground" does not
format to "Underground" — the branch for tokens without a namespace never
strips a leading `is_`, so it yields "Is Underground". -/
theorem C4_location_counterexample :
    format_location_names (.arr [.str "is_underground"]) ≠ some ["Underground"] := by
  decide

/-- C4 amended: "minecraft:overworld/is_forest" formats to
"Overworld: Forest"; the `is_` prefix is stripped only for namespaced
tokens ("minecraft:is_underground" formats to "Underground"), while the
bare token "is_underground" formats to "Is Underground". -/
theorem C4_location_amended :
    format_location_names (.arr [.str "minecraft:overworld/is_forest"]) =
      some ["Overworld: Forest"] ∧
    format_location_names (.arr [.str "minecraft:is_underground"]) = some ["Underground"] ∧
    format_location_names (.arr [.str "is_underground"]) = some ["Is Underground"] :=
  ⟨rfl, rfl, rfl⟩

/-! ## Association-list lemmas shared by the theorems -/

lemma map_fst_update {α : Type} (d : PyDict α) (k : String) (v : α) :
    (d.map (fun p => if p.1 = k then (k, v) else p)).map Prod.fst = d.map Prod.fst := by
  induction d with
  | nil => rfl
  | cons p ps ih => by_cases hp : p.1 = k <;> simp [hp, ih]

lemma mem_dictKeys_dictSet {α : Type} (d : PyDict α) (k a : String) (v : α) :
    a ∈ dictKeys (dictSet d k v) ↔ a = k ∨ a ∈ dictKeys d := by
  unfold dictSet
  by_cases hany : d.any (fun p => p.1 = k)
  · rw [if_pos hany]
    unfold dictKeys
    rw [map_fst_update]
    constructor
    · exact Or.inr
    · rintro (rfl | h)
      · obtain ⟨p, hp, hpk⟩ := List.any_eq_true.mp hany
        have hk : p.1 = a := of_decide_eq_true hpk
        exact hk ▸ List.mem_map_of_mem Prod.fst hp
      · exact h
  · rw [if_neg hany]
    unfold dictKeys
    simp [or_comm]

/-- Keys accumulated by the spawn-index fold: the accumulator's keys plus
the filename-derived key of every `.json` input entry. -/
lemma mem_keys_spawn_foldl (files : PyDict (PyBytes × String × String))
    (acc : PyDict (String × PyBytes × String × String)) (k : String) :
    k ∈ dictKeys (files.foldl spawn_index_step acc) ↔
      k ∈ dictKeys acc ∨
        ∃ p ∈ files, pyEndsWith p.1 ".json" = true ∧ k = dex_from_filename p.1 := by
  induction files generalizing acc with
  | nil => simp
  | cons p ps ih =>
    rw [List.foldl_cons, ih]
    unfold spawn_index_step
    by_cases hj : pyEndsWith p.1 ".json"
    · rw [if_pos hj, mem_dictKeys_dictSet]
      simp only [List.mem_cons]
      constructor
      · rintro ((rfl | h) | h)
        · exact Or.inr ⟨p, Or.inl rfl, hj, rfl⟩
        · exact Or.inl h
        · obtain ⟨q, hq, hqj, hqk⟩ := h
          exact Or.inr ⟨q, Or.inr hq, hqj, hqk⟩
      · rintro (h | ⟨q, (rfl | hq), hqj, hqk⟩)
        · exact Or.inl (Or.inr h)
        · exact Or.inl (Or.inl hqk)
        · exact Or.inr ⟨q, hq, hqj, hqk⟩
    · rw [if_neg hj]
      constructor
      · rintro (h | ⟨q, hq, hqj, hqk⟩)
        · exact Or.inl h
        · exact Or.inr ⟨q, List.mem_cons_of_mem p hq, hqj, hqk⟩
      · rintro (h | ⟨q, hq, hqj, hqk⟩)
        · exact Or.inl h
        · rcases List.mem_cons.mp hq with rfl | hq2
          · exact absurd hqj (by simpa using hj)
          · exact Or.inr ⟨q, hq2, hqj, hqk⟩

/-! ## C2 -/

/-- The fields of a species record with no `nationalPokedexNumber` field
at all. -/
def c2_species_fields : List (String × JValue) := [("name", .str "MissingDex")]

/-- A species record (a dict) with no `nationalPokedexNumber` field. -/
def c2_species_json : JValue := .obj c2_species_fields

/-- A species archive holding only that record. -/
def c2_species_files : PyDict (PyBytes × String × String) :=
  [("data/cobblemon/species/missing.json", (⟨true, some c2_species_json⟩, "Mod.zip", "species"))]

/-- C2 counterexample: a record whose `nationalPokedexNumber` field is
absent is stored in the species index after all — the missing field
coerces to `""`, which `zfill(4)` pads to "0000", and "0000" passes the
`dex and dex != "None"` filter, so the build succeeds with the record
under key "0000". This refutes "a record with the field absent is never
stored in the species index". -/
theorem C2_species_index_counterexample :
    species_dex_key c2_species_json = some "0000" ∧
    build_species_dex_dict c2_species_files =
      some [("0000",
        ("data/cobblemon/species/missing.json", c2_species_json, "species", "Mod.zip"))] :=
  ⟨rfl, rfl⟩

/-- C2 amended: for a species file whose document is a dict, the coerced
key is never empty after zero-padding, so the only such records the
filter skips are those whose coerced key is the literal string "None" — a
field present with JSON null; a dict record whose field is entirely
absent coerces to key "0000" and is stored in the species index under
that key. A species file whose document is not a dict never reaches the
filter: `data.get` raises an uncaught `AttributeError` (it sits outside
the `try` guarding the parse), the build crashes, and nothing is
stored. -/
theorem C2_species_index_amended :
    (∀ (path arch leaf : String) (b : PyBytes) (fs : List (String × JValue)),
      pyEndsWith path ".json" = true → b.parse = some (.obj fs) →
      jGet (.obj fs) "nationalPokedexNumber" = none →
      build_species_dex_dict [(path, (b, arch, leaf))] =
        some [("0000", (path, .obj fs, leaf, arch))]) ∧
    (∀ (path arch leaf : String) (b : PyBytes) (fs : List (String × JValue)),
      pyEndsWith path ".json" = true → b.parse = some (.obj fs) →
      jGet (.obj fs) "nationalPokedexNumber" = some .null →
      build_species_dex_dict [(path, (b, arch, leaf))] = some []) ∧
    (∀ (path arch leaf : String) (b : PyBytes) (data : JValue),
      pyEndsWith path ".json" = true → b.parse = some data →
      species_dex_key data = none →
      build_species_dex_dict [(path, (b, arch, leaf))] = none) := by
  refine ⟨?_, ?_, ?_⟩
  · intro path arch leaf b fs h1 h2 h3
    have hk : species_dex_key (.obj fs) = some "0000" := by
      unfold species_dex_key
      rw [h3]
      rfl
    simp [build_species_dex_dict, species_index_step, h1, h2, hk, dictSet]
  · intro path arch leaf b fs h1 h2 h3
    have hk : species_dex_key (.obj fs) = some "None" := by
      unfold species_dex_key
      rw [h3]
      rfl
    simp [build_species_dex_dict, species_index_step, h1, h2, hk]
  · intro path arch leaf b data h1 h2 hk
    simp [build_species_dex_dict, species_index_step, h1, h2, hk]

/-- C2 witness: the amended theorem applied at concrete inputs — the
field-absent dict record of the counterexample is stored under "0000",
the same record with a null field is skipped, and a species file parsing
to literal JSON `null` crashes the build (nothing stored). -/
theorem C2_species_index_amended_witness :
    build_species_dex_dict c2_species_files =
      some [("0000",
        ("data/cobblemon/species/missing.json", c2_species_json, "species", "Mod.zip"))] ∧
    build_species_dex_dict
      [("null_field.json",
        (⟨true, some (.obj [("nationalPokedexNumber", .null)])⟩, "A.zip", "species"))] = some [] ∧
    build_species_dex_dict
      [("null_doc.json", (⟨true, some .null⟩, "A.zip", "species"))] = none :=
  ⟨C2_species_index_amended.1 "data/cobblemon/species/missing.json" "Mod.zip" "species"
      ⟨true, some c2_species_json⟩ c2_species_fields rfl rfl rfl,
   C2_species_index_amended.2.1 "null_field.json" "A.zip" "species"
      ⟨true, some (.obj [("nationalPokedexNumber", .null)])⟩
      [("nationalPokedexNumber", .null)] rfl rfl rfl,
   C2_species_index_amended.2.2 "null_doc.json" "A.zip" "species"
      ⟨true, some .null⟩ .null rfl rfl rfl⟩

/-! ## C5 -/

/-- The key-derivation procedure exactly as the claim words it (spec
wording, for comparison with the source's `dex_from_filename`): take the
filename, strip non-numeric leading characters, take the leading numeric
token, strip leading zeros, re-pad to width 4. -/
def spec_leading_numeric_key (path : String) : String :=
  let base := osBasename path
  let tok : List Char := (base.toList.dropWhile (fun c => ¬ c.isDigit)).takeWhile Char.isDigit
  pyZfill (pyLstripZeros ⟨tok⟩) 4

/-- C5 counterexample: for the filename "ab12_x.json" the source keys the
entry under "ab12" (the raw segment before the first underscore,
zero-stripped and re-padded), while the claim's procedure — non-numeric
leading characters stripped first — would give "0012". The two
procedures the claim declares equivalent disagree, and the index uses the
former. -/
theorem C5_spawn_key_counterexample :
    dex_from_filename "ab12_x.json" = "ab12" ∧
    spec_leading_numeric_key "ab12_x.json" = "0012" ∧
    dictKeys (build_spawn_dex_dict
      [("ab12_x.json", (⟨true, some (.obj [])⟩, "A.zip", "spawn_pool_world"))]) = ["ab12"] ∧
    ("ab12" : String) ≠ "0012" :=
  ⟨rfl, rfl, rfl, by decide⟩

/-- C5 amended: the spawn index key of every `.json` entry is the segment
of the filename's basename before the first underscore, with leading
zeros stripped and the result re-padded to width 4 — no stripping of
non-numeric leading characters takes place; and exactly the `.json`
entries contribute keys. -/
theorem C5_spawn_key_amended (files : PyDict (PyBytes × String × String)) (k : String) :
    k ∈ dictKeys (build_spawn_dex_dict files) ↔
      ∃ p ∈ files, pyEndsWith p.1 ".json" = true ∧
        k = pyZfill (pyLstripZeros ((pySplit (osBasename p.1) "_").headD "")) 4 := by
  have hform : ∀ q : String,
      dex_from_filename q = pyZfill (pyLstripZeros ((pySplit (osBasename q) "_").headD "")) 4 :=
    fun q => rfl
  rw [build_spawn_dex_dict, mem_keys_spawn_foldl]
  simp only [hform, dictKeys, List.map_nil, List.not_mem_nil, false_or]

/-- C5 witness: the amended characterization applied to the Pikachu
archive — "0025" is a key of its spawn index because
"0025_pikachu.json" is a `.json` entry whose basename segment "0025"
strips and re-pads to "0025". -/
theorem C5_spawn_key_amended_witness :
    "0025" ∈ dictKeys (build_spawn_dex_dict exampleSpawnFiles) :=
  (C5_spawn_key_amended exampleSpawnFiles "0025").mpr
    ⟨("data/cobblemon/spawn_pool_world/0025_pikachu.json",
      (⟨true, some pikachuSpawnJson⟩, "Spawn.zip", "spawn_pool_world")),
     by simp [exampleSpawnFiles], rfl, rfl⟩

lemma dictGet_isSome_of_mem_keys {α : Type} (d : PyDict α) (k : String)
    (h : k ∈ dictKeys d) : (dictGet d k).isSome := by
  obtain ⟨p, hp, rfl⟩ := List.mem_map.mp h
  unfold dictGet
  cases hfind : List.find? (fun q => q.1 = p.1) d with
  | none => exact absurd (by simp) (List.find?_eq_none.mp hfind p hp)
  | some q => simp

lemma dictGet_eq_of_mem_nodup {α : Type} (d : PyDict α) (k : String) (v : α)
    (hnd : (dictKeys d).Nodup) (hm : (k, v) ∈ d) : dictGet d k = some v := by
  induction d with
  | nil => cases hm
  | cons p ps ih =>
    simp only [dictKeys, List.map_cons, List.nodup_cons] at hnd
    rcases List.mem_cons.mp hm with rfl | hm2
    · simp [dictGet]
    · have hpk : ¬ (p.1 = k) := by
        intro hpk
        apply hnd.1
        rw [hpk]
        exact List.mem_map_of_mem Prod.fst hm2
      unfold dictGet
      rw [List.find?_cons_of_neg _ (by simpa using hpk)]
      exact ih hnd.2 hm2

lemma pyIn_empty_left (s : String) : pyIn "" s = true :=
  List.any_eq_true.mpr ⟨0, by simp, by simp [List.isPrefixOf]⟩

/-! ## C6 -/

/-- C6: for any matched entry whose spawn side is null (null path and
bytes), and whose species summary extracts without raising, the merger
emits no merged-row list and exactly one SkippedEntry whose Dex Number is
the bare key — no leading hash is added. MergedRows are only produced on
the other branch, where the spawn side is non-null. -/
theorem C6_null_spawn_skip (matched : PyDict MatchedEntry) (dex : String) (t : MatchedEntry)
    (n p s : JValue) (e g l : String)
    (ht : dictGet matched dex = some t)
    (hsp : t.spawnPath = none) (hsb : t.spawnBytes = none)
    (hsum : species_summary t.speciesJson = some (n, p, s, e, g, l)) :
    process_entry dex matched = some (none, some
      { dexNumber := dex, pokemonName := n, primaryType := p, secondaryType := s,
        eggGroups := e, generation := g, labels := l, speciesArchive := t.speciesArchive }) := by
  simp [process_entry, ht, hsum, hsp, hsb, optStrTruthy, optBytesTruthy]

/-- The species record for dex 26, used by the C6 scenario. -/
def raichuSpeciesJson : JValue :=
  .obj [("nationalPokedexNumber", .num 26), ("name", .str "Raichu"),
        ("primaryType", .str "electric")]

/-- A matched map where key "0026" has species data but no spawn data.
The species file parses to a dict, so its build succeeds; `getD` extracts
the built index. -/
def c6Matched : PyDict MatchedEntry :=
  match_dex_numbers (build_spawn_dex_dict [])
    ((build_species_dex_dict
      [("data/cobblemon/species/raichu.json",
        (⟨true, some raichuSpeciesJson⟩, "Species.zip", "species"))]).getD [])

/-- C6 witness: species key "0026" with no spawn entry yields no merged
rows and exactly one SkippedEntry with Dex Number "0026" (no leading
hash). -/
theorem C6_null_spawn_skip_witness :
    process_entry "0026" c6Matched = some (none, some
      { dexNumber := "0026", pokemonName := .str "Raichu", primaryType := .str "electric",
        secondaryType := .str "", eggGroups := "", generation := "", labels := "",
        speciesArchive := some "Species.zip" }) :=
  C6_null_spawn_skip c6Matched "0026"
    (matched_of none
      (some ("data/cobblemon/species/raichu.json", raichuSpeciesJson, "species", "Species.zip")))
    (.str "Raichu") (.str "electric") (.str "") "" "" "" rfl rfl rfl rfl

/-! ## C7 -/

/-- C7: the Dex Matcher's result map lists each key exactly once (its key
list is duplicate-free), its key set is exactly the union of the spawn
and species index key sets, and every entry is the plain concatenation of
the two optional source tuples (the absent side null-filled) with at
least one side non-null — no data merging happens in this step. -/
theorem C7_match_union (spawn_dex : PyDict (String × PyBytes × String × String))
    (species_dex : PyDict (String × JValue × String × String)) :
    (((match_dex_numbers spawn_dex species_dex).map Prod.fst).Nodup) ∧
    (∀ k, k ∈ (match_dex_numbers spawn_dex species_dex).map Prod.fst ↔
      k ∈ dictKeys spawn_dex ∨ k ∈ dictKeys species_dex) ∧
    (∀ k t, (k, t) ∈ match_dex_numbers spawn_dex species_dex →
      t = matched_of (dictGet spawn_dex k) (dictGet species_dex k) ∧
      (t.spawnPath.isSome ∨ t.speciesPath.isSome)) := by
  have hmap : (match_dex_numbers spawn_dex species_dex).map Prod.fst =
      (dictKeys spawn_dex ++ dictKeys species_dex).dedup := by
    have hcomp : (Prod.fst ∘ fun dex =>
        (dex, matched_of (dictGet spawn_dex dex) (dictGet species_dex dex))) = id := rfl
    rw [match_dex_numbers, List.map_map, hcomp, List.map_id]
  refine ⟨?_, ?_, ?_⟩
  · rw [hmap]; exact List.nodup_dedup _
  · intro k; rw [hmap]; simp
  · intro k t hmem
    obtain ⟨a, ha, heq⟩ := List.mem_map.mp hmem
    have hk : a = k := congrArg Prod.fst heq
    subst hk
    have ht : t = matched_of (dictGet spawn_dex a) (dictGet species_dex a) :=
      (congrArg Prod.snd heq).symm
    refine ⟨ht, ?_⟩
    have ha2 : a ∈ dictKeys spawn_dex ∨ a ∈ dictKeys species_dex := by
      simpa using List.mem_dedup.mp ha
    rw [ht]
    rcases ha2 with h | h
    · exact Or.inl (by simp [matched_of, dictGet_isSome_of_mem_keys _ _ h])
    · exact Or.inr (by simp [matched_of, dictGet_isSome_of_mem_keys _ _ h])

/-- C7 witness: on the Pikachu archives the matcher's key list is
duplicate-free, "0025" is a key (it is a spawn-index key), and the entry
stored for "0025" has a non-null side. -/
theorem C7_match_union_witness :
    (((match_dex_numbers (build_spawn_dex_dict exampleSpawnFiles)
        exampleSpeciesDex).map Prod.fst).Nodup) ∧
    ("0025" ∈ (match_dex_numbers (build_spawn_dex_dict exampleSpawnFiles)
        exampleSpeciesDex).map Prod.fst) ∧
    ((matched_of (dictGet (build_spawn_dex_dict exampleSpawnFiles) "0025")
        (dictGet exampleSpeciesDex "0025")).spawnPath.isSome ∨
     (matched_of (dictGet (build_spawn_dex_dict exampleSpawnFiles) "0025")
        (dictGet exampleSpeciesDex "0025")).speciesPath.isSome) :=
  ⟨(C7_match_union (build_spawn_dex_dict exampleSpawnFiles) exampleSpeciesDex).1,
   ((C7_match_union (build_spawn_dex_dict exampleSpawnFiles)
      exampleSpeciesDex).2.1 "0025").mpr (Or.inl (by decide)),
   ((C7_match_union (build_spawn_dex_dict exampleSpawnFiles)
      exampleSpeciesDex).2.2 "0025" _
      (List.mem_singleton.mpr rfl)).2⟩

/-! ## C8 -/

/-- The species record joined to the C8 counterexample key. -/
def bulbaSpeciesJson : JValue :=
  .obj [("name", .str "Bulbasaur"), ("primaryType", .str "grass")]

/-- A matched entry whose spawn side is non-null but whose spawn bytes
are the empty byte string — which `json.loads` fails to parse. -/
def c8Entry : MatchedEntry :=
  { spawnPath := some "data/cobblemon/spawn_pool_world/0001_bulbasaur.json"
    spawnBytes := some ⟨false, none⟩
    spawnArchive := some "A.zip"
    speciesPath := some "data/cobblemon/species/bulbasaur.json"
    speciesJson := some bulbaSpeciesJson
    speciesDir := some "species"
    speciesArchive := some "A.zip" }

/-- The matched map holding that entry under key "0001". -/
def c8Matched : PyDict MatchedEntry := [("0001", c8Entry)]

/-- C8 counterexample: a matched entry whose spawn side is non-null but
whose bytes are empty — bytes that fail to parse as JSON — does produce a
SkippedEntry: the absence check `not spawn_file or not spawn_blob` treats
falsy (empty) bytes as missing spawn data and takes the skip path before
any parse is attempted. This refutes "produces no MergedRow and no
SkippedEntry" for that non-null spawn side. -/
theorem C8_parse_fail_counterexample :
    c8Entry.spawnPath ≠ none ∧ c8Entry.spawnBytes = some ⟨false, none⟩ ∧
    ∃ sk, process_entry "0001" c8Matched = some (none, some sk) :=
  ⟨by simp [c8Entry], rfl, ⟨_, rfl⟩⟩

/-- C8 amended: when the spawn side is non-null and truthy — a non-empty
path and non-empty bytes — and the bytes fail to parse as JSON, the
merger returns no merged-row list and no SkippedEntry for that key (a
silent drop); if the bytes are empty they also fail to parse, but the
key takes the skip path instead and yields a SkippedEntry. -/
theorem C8_parse_fail_amended (matched : PyDict MatchedEntry) (dex : String)
    (t : MatchedEntry) (b : PyBytes) (n p s : JValue) (e g l : String)
    (ht : dictGet matched dex = some t)
    (hpath : optStrTruthy t.spawnPath = true)
    (hb : t.spawnBytes = some b) (hbn : b.nonempty = true) (hbp : b.parse = none)
    (hsum : species_summary t.speciesJson = some (n, p, s, e, g, l)) :
    process_entry dex matched = some (none, none) := by
  simp [process_entry, ht, hsum, hb, hbp, optBytesTruthy, hbn, hpath]

/-- A matched entry with a truthy spawn side whose non-empty bytes fail
to parse. -/
def c8bMatched : PyDict MatchedEntry :=
  [("0002",
    { spawnPath := some "data/cobblemon/spawn_pool_world/0002_ivysaur.json"
      spawnBytes := some ⟨true, none⟩
      spawnArchive := some "A.zip"
      speciesPath := none
      speciesJson := none
      speciesDir := none
      speciesArchive := none })]

/-- C8 witness: the amended theorem applied to a key whose non-empty
spawn bytes fail to parse — processing that key yields neither rows nor
a skip record. -/
theorem C8_parse_fail_amended_witness :
    process_entry "0002" c8bMatched = some (none, none) :=
  C8_parse_fail_amended c8bMatched "0002"
    { spawnPath := some "data/cobblemon/spawn_pool_world/0002_ivysaur.json"
      spawnBytes := some ⟨true, none⟩
      spawnArchive := some "A.zip"
      speciesPath := none
      speciesJson := none
      speciesDir := none
      speciesArchive := none }
    ⟨true, none⟩ (.str "") (.str "") (.str "") "" "" "" rfl rfl rfl rfl rfl rfl

/-! ## C9 -/

/-- C9: every run mode the CLI offers sets the
include-spawn-without-species flag to false, and with that flag false a
matched key whose species side is null is never handed to the Entry
Merger — it is excluded from the processed key list, so it contributes
neither a MergedRow nor a SkippedEntry to any output. -/
theorem C9_mode_species_filter :
    (∀ m : Mode, (apply_mode m).include_spawn_without_species = false) ∧
    (∀ (matched : PyDict MatchedEntry) (k : String) (t : MatchedEntry),
      (dictKeys matched).Nodup → dictGet matched k = some t → t.speciesJson = none →
      k ∉ iter_keys matched false) := by
  constructor
  · intro m; cases m <;> rfl
  · intro matched k t hnd hget hnone hk
    unfold iter_keys at hk
    simp only [if_neg (by simp : ¬ (false : Bool) = true)] at hk
    obtain ⟨p, hp, rfl⟩ := List.mem_map.mp hk
    have hpf := List.mem_filter.mp hp
    have hsome := dictGet_eq_of_mem_nodup matched p.1 p.2 hnd (by simpa using hpf.1)
    rw [hget] at hsome
    have ht : p.2 = t := (Option.some.inj hsome).symm
    rw [ht, hnone] at hpf
    simpa using hpf.2

/-- A matched map whose only key "0025" has spawn data but no species
record. -/
def c9Matched : PyDict MatchedEntry :=
  match_dex_numbers (build_spawn_dex_dict exampleSpawnFiles)
    ((build_species_dex_dict []).getD [])

/-- C9 witness: the full mode keeps the flag false, and the spawn-only
key "0025" is excluded from the processed key list. -/
theorem C9_mode_species_filter_witness :
    (apply_mode Mode.full).include_spawn_without_species = false ∧
    "0025" ∉ iter_keys c9Matched false :=
  ⟨C9_mode_species_filter.1 Mode.full,
   C9_mode_species_filter.2 c9Matched "0025"
     (matched_of
       (some ("data/cobblemon/spawn_pool_world/0025_pikachu.json",
         ⟨true, some pikachuSpawnJson⟩, "Spawn.zip", "spawn_pool_world"))
       none)
     (by decide) rfl rfl⟩

/-! ## C10 -/

/-- The fields of a form whose `name` is the empty string. -/
def c10FormFields : List (String × JValue) :=
  [("name", .str ""), ("primaryType", .str "ghost"),
   ("eggGroups", .arr [.str "fairy"]), ("labels", .arr [.str "mythical"])]

/-- A form with an empty name (its own type, egg groups and labels). -/
def c10Form : JValue := .obj c10FormFields

/-- A species record whose forms list starts with the empty-named form,
and whose top-level labels differ from the form's labels. -/
def c10Species : JValue :=
  .obj [("name", .str "Pikachu"), ("primaryType", .str "electric"),
        ("labels", .arr [.str "legendary"]), ("forms", .arr [c10Form])]

/-- A spawn condition entry naming Pikachu. -/
def c10Entry : JValue := .obj [("pokemon", .str "Pikachu")]

/-- The merged row built from `c10Species` and `c10Entry`. -/
def c10Row : MergedRow :=
  { dexNumber := "#0025"
    pokemonName := "Pikachu"
    primaryType := "Ghost"
    secondaryType := "-----"
    rarity := ""
    eggGroups := "Fairy"
    generation := ""
    labels := "Legendary"
    time := "Any"
    weather := "Any"
    sky := "Any"
    presets := ""
    biomes := ""
    antiBiomes := ""
    structures := ""
    antiStructures := ""
    moonPhase := ""
    antiMoonPhase := ""
    baseBlocks := ""
    nearbyBlocks := ""
    weight := .str ""
    context := ""
    spawnId := .str "Unknown"
    speciesArchive := "Unknown"
    originalSpawnArchive := "Unknown"
    originalSpeciesArchive := "Unknown" }

/-- C10 counterexample: the empty-named form is selected for the row, yet
the row's Labels field is "Legendary" — the top-level species record's
label, not the form's "Mythical" — so the form does not supply the
per-row label field as the claim states (the code reads labels from
`species_data`, not from the resolved form). -/
theorem C10_form_lookup_counterexample :
    get_species_data "Pikachu" c10Species = some c10Form ∧
    build_merged_entry "0025" (some c10Species) c10Entry none none none none "" none =
      some (some c10Row) ∧
    c10Row.labels = "Legendary" ∧ c10Row.labels ≠ "Mythical" :=
  ⟨rfl, rfl, rfl, by decide⟩

/-- C10 amended: a form whose `name` field is missing or empty matches
every pokemon name (the empty string is a substring of every string), so
when such a form heads the forms list it is the resolved sub-record for
every spawn condition; it supplies the per-row type and egg-group fields,
while the Labels (and Generation) fields are still taken from the
top-level species record. -/
theorem C10_empty_form_amended :
    (∀ (pn : String) (sd f : JValue) (fs : List (String × JValue)) (rest : List JValue),
      jGet sd "forms" = some (.arr (f :: rest)) → f = .obj fs →
      (jGet f "name" = some (.str "") ∨ jGet f "name" = none) →
      get_species_data pn sd = some f) ∧
    (build_merged_entry "0025" (some c10Species) c10Entry none none none none "" none =
        some (some c10Row) ∧
      c10Row.primaryType = "Ghost" ∧ c10Row.eggGroups = "Fairy" ∧
      c10Row.labels = "Legendary") := by
  constructor
  · intro pn sd f fs rest hforms hobj hname
    cases sd with
    | obj sfs =>
      unfold get_species_data
      have hpg : pyGet (.obj sfs) "forms" (.arr []) =
          some ((jGet (.obj sfs) "forms").getD (.arr [])) := rfl
      rw [hpg, hforms]
      simp only [Option.getD_some, Option.some_bind]
      show (pyIter (.arr (f :: rest))).bind (find_form pn (.obj sfs)) = some f
      simp only [pyIter, Option.some_bind]
      show find_form pn (.obj sfs) (f :: rest) = some f
      unfold find_form
      subst hobj
      have hng : pyGet (.obj fs) "name" (.str "") =
          some ((jGet (.obj fs) "name").getD (.str "")) := rfl
      rw [hng]
      rcases hname with h | h <;> rw [h] <;>
        simp [asStr, pyLower, pyIn_empty_left]
    | null => simp [jGet] at hforms
    | bool b => simp [jGet] at hforms
    | num n => simp [jGet] at hforms
    | str s => simp [jGet] at hforms
    | arr xs => simp [jGet] at hforms
  · exact ⟨rfl, rfl, rfl, rfl⟩

/-- C10 witness: the amended form-matching rule applied at a concrete
name the form's data has nothing to do with — the empty-named form still
matches "Eevee". -/
theorem C10_empty_form_amended_witness :
    get_species_data "Eevee" c10Species = some c10Form :=
  C10_empty_form_amended.1 "Eevee" c10Species c10Form c10FormFields [] rfl rfl (Or.inl rfl)
